import Mathlib

/-!
Verification of the resource-model and query/mutation layer of
`pivotal_tools/pivotal.py`, shallowly embedded in Lean.

Decoded JSON values (the result of `response.json()`) are modelled by
`JVal`, with JSON objects as association lists and `jnull` standing for
JSON null, which the Python code observes as `None`.  Python exceptions
are modelled by `PyError`, fallible Python code by `Except PyError`.
Network traffic is modelled explicitly: a computation that may talk to
the remote service is a function from the remote service (`Remote`,
mapping every HTTP request to its response) to a result together with
the ordered list of requests the computation issued.
-/

/-- A decoded JSON value, with `jnull` for JSON null (Python `None`). -/
inductive JVal where
  | jnull : JVal
  | jbool : Bool → JVal
  | jint : Int → JVal
  | jstr : String → JVal
  | jarr : List JVal → JVal
  | jobj : List (String × JVal) → JVal

/-- Python exceptions raised by the embedded code.  `httpError` carries
the response status code (`requests.HTTPError`); `parseError` stands
for a failed `int(...)` conversion (Python `ValueError`/`TypeError`,
the `ParseError` of the specification's taxonomy); `attributeError`
models calling a missing method such as `.strip()` or `.get()` on a
value that lacks it; `typeError` models non-conversion type errors
(iterating a non-iterable, calling a constructor with the wrong arity);
`keyError` models a failed dict subscript; `invalidStateException`
models the library's own `InvalidStateException`. -/
inductive PyError where
  | httpError : Nat → PyError
  | parseError : PyError
  | attributeError : PyError
  | typeError : PyError
  | keyError : PyError
  | invalidStateException : PyError
  deriving DecidableEq

/-- Python `node.get(key)` on a decoded JSON object: `none` when the key
is missing or its value is JSON null (both read back as Python `None`);
calling `.get` on a non-dict raises `AttributeError`. -/
def JVal.get : JVal → String → Except PyError (Option JVal)
  | .jobj fields, key =>
    match fields.lookup key with
    | none => Except.ok none
    | some .jnull => Except.ok none
    | some v => Except.ok (some v)
  | _, _ => Except.error PyError.attributeError

/-- Python truthiness of a decoded JSON value, `bool(x)`. -/
def JVal.pyTruthy : JVal → Bool
  | .jnull => false
  | .jbool b => b
  | .jint n => n != 0
  | .jstr s => !s.isEmpty
  | .jarr xs => !xs.isEmpty
  | .jobj fields => !fields.isEmpty

/-- Python iteration over a decoded JSON value (`for x in v`): lists
yield their elements, dicts their keys, strings their one-character
substrings; other values raise `TypeError`. -/
def JVal.pyIter : JVal → Except PyError (List JVal)
  | .jarr xs => Except.ok xs
  | .jobj fields => Except.ok (fields.map fun f => JVal.jstr f.1)
  | .jstr s => Except.ok (s.data.map fun c => JVal.jstr (String.singleton c))
  | _ => Except.error PyError.typeError

/-- Python `str.strip()`: remove leading and trailing whitespace. -/
def pyStrip (s : String) : String :=
  String.mk (((s.data.dropWhile Char.isWhitespace).reverse.dropWhile
    Char.isWhitespace).reverse)

/-- Accumulate decimal digits; any non-digit character fails. -/
def parseDigitsGo : List Char → Nat → Option Nat
  | [], acc => some acc
  | c :: rest, acc =>
    if 48 ≤ c.toNat && c.toNat ≤ 57 then parseDigitsGo rest (acc * 10 + (c.toNat - 48))
    else none

/-- A non-empty all-digit character list, as a natural number. -/
def parseDigits : List Char → Option Nat
  | [] => none
  | c :: rest => parseDigitsGo (c :: rest) 0

/-- Python `int(s)` on a string: surrounding whitespace is ignored, one
optional sign is allowed, otherwise the string must consist of digits. -/
def pyStrToInt (s : String) : Option Int :=
  match (pyStrip s).data with
  | [] => none
  | c :: rest =>
    if c.toNat = 45 then (parseDigits rest).map (fun n => -(n : Int))
    else if c.toNat = 43 then (parseDigits rest).map (fun n => (n : Int))
    else (parseDigits (c :: rest)).map (fun n => (n : Int))

/-- Python `int(x)` on a decoded JSON value.  Booleans are ints in
Python; strings are parsed; every other value fails to convert.  All
conversion failures are classified as the specification's `ParseError`. -/
def pyIntConv : JVal → Except PyError Int
  | .jint n => Except.ok n
  | .jbool b => Except.ok (if b then 1 else 0)
  | .jstr s =>
    match pyStrToInt s with
    | some n => Except.ok n
    | none => Except.error PyError.parseError
  | _ => Except.error PyError.parseError

theorem except_bind_ok {α β ε : Type} (a : α) (f : α → Except ε β) :
    Except.bind (Except.ok a) f = f a := rfl

theorem except_bind_error {α β ε : Type} (e : ε) (f : α → Except ε β) :
    Except.bind (Except.error e) f = (Except.error e : Except ε β) := rfl

/-- `_parse_text(node, key)` (pivotal.py lines 282-291): a missing or
null key gives the empty string; a present string is stripped (the
duplicated inner `is not None` test in the source is dead code, its
`else` branch unreachable); a present non-string value makes
`element.strip()` raise `AttributeError`. -/
def _parse_text (node : JVal) (key : String) : Except PyError String :=
  Except.bind (node.get key) fun element =>
    match element with
    | some (.jstr s) => Except.ok (pyStrip s)
    | some _ => Except.error PyError.attributeError
    | none => Except.ok ""

/-- `_parse_int(node, key)` (pivotal.py lines 294-300): a missing or
null key gives `none`; otherwise the value is converted with `int(...)`. -/
def _parse_int (node : JVal) (key : String) : Except PyError (Option Int) :=
  Except.bind (node.get key) fun element =>
    match element with
    | some v => Except.map some (pyIntConv v)
    | none => Except.ok none

/-- `_parse_array(node, key)` (pivotal.py lines 303-309): the raw value
if present, else `None`. -/
def _parse_array (node : JVal) (key : String) : Except PyError (Option JVal) :=
  node.get key

/-- `_parse_boolean(node, key)` (pivotal.py lines 311-317): `bool(x)` of
the raw value if present, else `None`. -/
def _parse_boolean (node : JVal) (key : String) : Except PyError (Option Bool) :=
  Except.bind (node.get key) fun element =>
    match element with
    | some v => Except.ok (some v.pyTruthy)
    | none => Except.ok none

/-- Object representation of a Pivotal Note (pivotal.py lines 31-36). -/
structure Note where
  note_id : Option Int
  text : String
  author : String

/-- Object representation of a Pivotal Task (pivotal.py lines 39-44). -/
structure PivotalTask where
  task_id : Option Int
  description : String
  complete : Option Bool

/-- Object representation of a Pivotal attachment (lines 47-52). -/
structure Attachment where
  attachment_id : Option Int
  description : String
  url : String

/-- Object representation of a Pivotal story (pivotal.py lines 55-70),
with the field types the parsers produce. -/
structure Story where
  story_id : Option Int
  project_id : Option Int
  name : String
  description : String
  owned_by : String
  story_type : String
  estimate : Option Int
  state : String
  url : String
  labels : Option JVal
  notes : List Note
  attachments : List Attachment
  tasks : List PivotalTask

/-- Object representation of a Pivotal project (pivotal.py lines
179-185). -/
structure Project where
  project_id : Option Int
  name : String
  point_scale : Option JVal

/-- Body of the `notes` loop of `Story.from_json` (lines 114-120). -/
def parseNote (note_node : JVal) : Except PyError Note :=
  Except.bind (_parse_int note_node "id") fun note_id =>
  Except.bind (_parse_text note_node "text") fun text =>
  Except.bind (_parse_text note_node "author") fun author =>
  Except.ok { note_id := note_id, text := text, author := author }

/-- Body of the `attachments` loop of `Story.from_json` (lines 122-128);
the description is read from the `text` key, as in the source. -/
def parseAttachment (attachment_node : JVal) : Except PyError Attachment :=
  Except.bind (_parse_int attachment_node "id") fun attachment_id =>
  Except.bind (_parse_text attachment_node "text") fun description =>
  Except.bind (_parse_text attachment_node "url") fun url =>
  Except.ok { attachment_id := attachment_id, description := description, url := url }

/-- Body of the `tasks` loop of `Story.from_json` (lines 130-136). -/
def parseTask (task_node : JVal) : Except PyError PivotalTask :=
  Except.bind (_parse_int task_node "id") fun task_id =>
  Except.bind (_parse_text task_node "description") fun description =>
  Except.bind (_parse_boolean task_node "complete") fun complete =>
  Except.ok { task_id := task_id, description := description, complete := complete }

/-- The `x_nodes = node.get(k); if x_nodes is not None: for ...` child
collection pattern of `Story.from_json`: an absent (or null) key
contributes the empty list, otherwise the value is iterated and every
element parsed. -/
def parseChildList {α : Type} (node : JVal) (key : String)
    (f : JVal → Except PyError α) : Except PyError (List α) :=
  Except.bind (node.get key) fun child_nodes =>
    match child_nodes with
    | none => Except.ok []
    | some v => Except.bind v.pyIter fun xs => xs.mapM f

/-- `Story.from_json(node)` (pivotal.py lines 98-140), in the source's
assignment order.  A pure function: its type shows that no network
access is possible during construction. -/
def Story.from_json (node : JVal) : Except PyError Story :=
  Except.bind (_parse_int node "id") fun story_id =>
  Except.bind (_parse_text node "name") fun name =>
  Except.bind (_parse_text node "owned_by") fun owned_by =>
  Except.bind (_parse_text node "story_type") fun story_type =>
  Except.bind (_parse_text node "current_state") fun state =>
  Except.bind (_parse_text node "description") fun description =>
  Except.bind (_parse_int node "estimate") fun estimate =>
  Except.bind (_parse_array node "labels") fun labels =>
  Except.bind (_parse_text node "url") fun url =>
  Except.bind (_parse_int node "project_id") fun project_id =>
  Except.bind (parseChildList node "notes" parseNote) fun notes =>
  Except.bind (parseChildList node "attachments" parseAttachment) fun attachments =>
  Except.bind (parseChildList node "tasks" parseTask) fun tasks =>
  Except.ok { story_id := story_id, project_id := project_id, name := name,
              description := description, owned_by := owned_by,
              story_type := story_type, estimate := estimate, state := state,
              url := url, labels := labels, notes := notes,
              attachments := attachments, tasks := tasks }

/-- `Story.first_label` (pivotal.py lines 73-79): `if self.labels:
return self.labels[0] else None`, with Python truthiness and Python
subscript semantics on the raw labels value. -/
def Story.first_label (s : Story) : Except PyError (Option JVal) :=
  match s.labels with
  | none => Except.ok none
  | some v =>
    if v.pyTruthy then
      match v with
      | .jarr (x :: _) => Except.ok (some x)
      | .jstr str => Except.ok (some (JVal.jstr (String.singleton str.front)))
      | .jobj _ => Except.error PyError.keyError
      | _ => Except.error PyError.typeError
    else Except.ok none

/-- `Project.from_json(project_node)` (pivotal.py lines 187-192). -/
def Project.from_json (project_node : JVal) : Except PyError Project :=
  Except.bind (_parse_text project_node "name") fun name =>
  Except.bind (_parse_int project_node "id") fun id =>
  Except.bind (_parse_array project_node "point_scale") fun point_scale =>
  Except.ok { project_id := id, name := name, point_scale := point_scale }

/-- One HTTP request: method, URL and (for PUT/POST) the JSON payload. -/
structure Request where
  method : String
  url : String
  payload : List (String × JVal)

/-- One HTTP response; the body is the decoded JSON (responses whose
body is not valid JSON are outside this model). -/
structure HttpResponse where
  status : Nat
  body : JVal

/-- The remote service: a response for every request (redirect handling
happens inside the transport, so this is the final response). -/
def Remote : Type := Request → HttpResponse

/-- `response.raise_for_status()` followed by `response.json()`:
`requests` raises `HTTPError` exactly for status codes in [400, 600). -/
def raise_for_status (response : HttpResponse) : Except PyError JVal :=
  if 400 ≤ response.status ∧ response.status < 600 then
    Except.error (PyError.httpError response.status)
  else Except.ok response.body

/-- A computation that may call the remote service: from the service it
produces a result and the ordered list of requests it issued. -/
def Net (α : Type) : Type := Remote → Except PyError α × List Request

def Net.pure {α : Type} (a : α) : Net α := fun _ => (Except.ok a, [])

def Net.lift {α : Type} (e : Except PyError α) : Net α := fun _ => (e, [])

def Net.throw {α : Type} (e : PyError) : Net α := fun _ => (Except.error e, [])

def Net.bind {α β : Type} (x : Net α) (f : α → Net β) : Net β := fun remote =>
  match x remote with
  | (Except.ok a, t) => ((f a remote).1, t ++ (f a remote).2)
  | (Except.error e, t) => (Except.error e, t)

/-- `_perform_pivotal_get(url)` (pivotal.py lines 261-266): one GET
request, then `raise_for_status`, then the decoded JSON body. -/
def _perform_pivotal_get (url : String) : Net JVal := fun remote =>
  (raise_for_status (remote { method := "GET", url := url, payload := [] }),
   [{ method := "GET", url := url, payload := [] }])

/-- `_perform_pivotal_put(url, payload)` (pivotal.py lines 269-273). -/
def _perform_pivotal_put (url : String) (payload : List (String × JVal)) :
    Net JVal := fun remote =>
  (raise_for_status (remote { method := "PUT", url := url, payload := payload }),
   [{ method := "PUT", url := url, payload := payload }])

/-- Python `"{}".format(x)` on an int-or-None attribute. -/
def fmtOptInt : Option Int → String
  | some n => toString n
  | none => "None"

/-- Uppercase hexadecimal digit, as produced by `urllib.quote`. -/
def hexDigitUpper (n : Nat) : Char :=
  if n < 10 then Char.ofNat (48 + n) else Char.ofNat (55 + n)

/-- UTF-8 bytes of one character (Python 2 `urllib.quote` operates on
the UTF-8 byte string). -/
def utf8Bytes (c : Char) : List Nat :=
  let n := c.toNat
  if n < 128 then [n]
  else if n < 2048 then [192 + n / 64, 128 + n % 64]
  else if n < 65536 then [224 + n / 4096, 128 + n / 64 % 64, 128 + n % 64]
  else [240 + n / 262144, 128 + n / 4096 % 64, 128 + n / 64 % 64, 128 + n % 64]

/-- Bytes Python 2 `urllib.quote` never encodes: ASCII letters, digits,
underscore, dot and hyphen (with `safe=''` nothing else is safe). -/
def isAlwaysSafe (b : Nat) : Bool :=
  (48 ≤ b && b ≤ 57) || (65 ≤ b && b ≤ 90) || (97 ≤ b && b ≤ 122) ||
  b == 95 || b == 46 || b == 45

/-- Percent-encoding of one byte under `urllib.quote(s, safe='')`. -/
def quoteByte (b : Nat) : String :=
  if isAlwaysSafe b then String.singleton (Char.ofNat b)
  else String.mk [Char.ofNat 37, hexDigitUpper (b / 16), hexDigitUpper (b % 16)]

/-- `urllib.quote(filter_string, safe='')` (used at pivotal.py line 215). -/
def pyQuote (s : String) : String :=
  ((s.data.flatMap utf8Bytes).map quoteByte).foldl (fun acc piece => acc ++ piece) ""

def projects_url : String := "https://www.pivotaltracker.com/services/v5/projects"

/-- URL built in `Project.load_project` (line 204), `"%s" % project_id`. -/
def project_url (project_id : Int) : String :=
  "https://www.pivotaltracker.com/services/v5/projects/" ++ toString project_id

/-- URL built in `Project.get_stories` (lines 215-216). -/
def stories_filter_url (p : Project) (filter_string : String) : String :=
  "https://www.pivotaltracker.com/services/v5/projects/" ++ fmtOptInt p.project_id ++
    "/stories?filter=" ++ pyQuote filter_string

/-- URL built in `Project.load_story` (line 223). -/
def story_url (p : Project) (story_id : Int) : String :=
  "https://www.pivotaltracker.com/services/v5/projects/" ++ fmtOptInt p.project_id ++
    "/stories/" ++ toString story_id

/-- URL built in `Story.update` (line 148). -/
def update_story_url (s : Story) : String :=
  "https://www.pivotaltracker.com/services/v5/projects/" ++ fmtOptInt s.project_id ++
    "/stories/" ++ fmtOptInt s.story_id

/-- The single GET request `Project.load_story` issues. -/
def story_request (p : Project) (story_id : Int) : Request :=
  { method := "GET", url := story_url p story_id, payload := [] }

/-- `Story.update(**payload)` (pivotal.py lines 146-149). -/
def Story.update (s : Story) (payload : List (String × JVal)) : Net JVal :=
  _perform_pivotal_put (update_story_url s) payload

/-- `Story.set_state(state)` (pivotal.py lines 151-153). -/
def Story.set_state (s : Story) (state : String) : Net JVal :=
  s.update [("current_state", JVal.jstr state)]

/-- `Story.finish()` (pivotal.py lines 155-158); the value returned by
`set_state` is discarded. -/
def Story.finish (s : Story) : Net Unit :=
  if s.estimate = some (-1) then Net.throw PyError.invalidStateException
  else Net.bind (s.set_state "finished") fun _ => Net.pure ()

/-- `Story.start()` (pivotal.py lines 160-163). -/
def Story.start (s : Story) : Net Unit :=
  if s.estimate = some (-1) then Net.throw PyError.invalidStateException
  else Net.bind (s.set_state "started") fun _ => Net.pure ()

/-- `Story.deliver()` (pivotal.py lines 165-168). -/
def Story.deliver (s : Story) : Net Unit :=
  if s.estimate = some (-1) then Net.throw PyError.invalidStateException
  else Net.bind (s.set_state "delivered") fun _ => Net.pure ()

/-- `Project.all()` (pivotal.py lines 194-200): when the decoded body is
JSON null the `if root is not None` test fails and the method falls off
the end, returning `None`. -/
def Project.all : Net (Option (List Project)) :=
  Net.bind (_perform_pivotal_get projects_url) fun root =>
    match root with
    | JVal.jnull => Net.pure none
    | _ => Net.lift (Except.map some
        (Except.bind root.pyIter fun nodes => nodes.mapM Project.from_json))

/-- `Project.load_project(project_id)` (pivotal.py lines 202-207).  The
final `Project(project_id, name)` call supplies two arguments to a
three-parameter constructor, so Python raises `TypeError` there. -/
def Project.load_project (project_id : Int) : Net Project :=
  Net.bind (_perform_pivotal_get (project_url project_id)) fun response =>
  Net.lift (Except.bind (_parse_text response "name") fun _name =>
    Except.error PyError.typeError)

/-- `Project.get_stories(filter_string)` (pivotal.py lines 209-219). -/
def Project.get_stories (p : Project) (filter_string : String) : Net (List Story) :=
  Net.bind (_perform_pivotal_get (stories_filter_url p filter_string)) fun response =>
  Net.lift (Except.bind response.pyIter fun story_nodes =>
    story_nodes.mapM Story.from_json)

/-- `Project.load_story(story_id)` (pivotal.py lines 221-233): the
`try` block performs the GET and builds the story; only
`requests.HTTPError` is caught, and only a 404 status is converted to
`None` — every other exception propagates. -/
def Project.load_story (p : Project) (story_id : Int) : Net (Option Story) := fun remote =>
  match raise_for_status (remote (story_request p story_id)) with
  | Except.error (PyError.httpError 404) => (Except.ok none, [story_request p story_id])
  | Except.error e => (Except.error e, [story_request p story_id])
  | Except.ok response =>
    match Story.from_json response with
    | Except.ok story => (Except.ok (some story), [story_request p story_id])
    | Except.error e => (Except.error e, [story_request p story_id])

/-- `Project.open_bugs()` (pivotal.py lines 243-244). -/
def Project.open_bugs (p : Project) : Net (List Story) :=
  p.get_stories "type:bug state:unstarted"

/-- Python `int(story.estimate)` inside `unestimated_stories`: the
estimate attribute is an int or `None`, and `int(None)` is a conversion
failure. -/
def int_of_estimate : Option Int → Except PyError Int
  | some n => Except.ok n
  | none => Except.error PyError.parseError

/-- The comprehension `[story for story in stories if
int(story.estimate) == -1]` of `unestimated_stories` (line 241). -/
def filterUnestimated : List Story → Except PyError (List Story)
  | [] => Except.ok []
  | s :: rest =>
    Except.bind (int_of_estimate s.estimate) fun e =>
    Except.bind (filterUnestimated rest) fun tail =>
    Except.ok (if e = -1 then s :: tail else tail)

/-- `Project.unestimated_stories()` (pivotal.py lines 239-241): fetch
the unstarted features, fetch the open bugs, then append the
client-side filtered features to the bugs. -/
def Project.unestimated_stories (p : Project) : Net (List Story) :=
  Net.bind (p.get_stories "type:feature state:unstarted") fun stories =>
  Net.bind p.open_bugs fun bugs =>
  Net.lift (Except.bind (filterUnestimated stories) fun unestimated =>
    Except.ok (bugs ++ unestimated))

/-- The `for project in ...` loop of `find_project_for_story`
(pivotal.py lines 17-20): try each project in order, stopping at the
first whose `load_story` is not `None`. -/
def findLoop (story_id : Int) : List Project → Net (Option Project)
  | [] => Net.pure none
  | p :: rest =>
    Net.bind (p.load_story story_id) fun story =>
      match story with
      | some _ => Net.pure (some p)
      | none => findLoop story_id rest

/-- `find_project_for_story(story_id)` (pivotal.py lines 12-24): loops
over `Project.all()`; when no project has the story it prints a message
(not modelled, stdout only) and returns `None`.  When `Project.all()`
returns `None`, the `for` statement raises `TypeError`. -/
def find_project_for_story (story_id : Int) : Net (Option Project) :=
  Net.bind Project.all fun projects =>
    match projects with
    | none => Net.throw PyError.typeError
    | some ps => findLoop story_id ps

/-- A story with every attribute at the `Story()` constructor's
defaults (pivotal.py lines 57-70). -/
def defaultStory : Story :=
  { story_id := none, project_id := none, name := "", description := "",
    owned_by := "", story_type := "", estimate := none, state := "",
    url := "", labels := none, notes := [], attachments := [], tasks := [] }

/-- C6 (counterexample): the claim that `parse_text` never fails is
false.  On a node whose value at the key is present, non-null and not a
string (here the integer 5), `_parse_text` raises `AttributeError`,
because Python calls `.strip()` on the raw value. -/
theorem parse_text_nonstring_counterexample :
    _parse_text (JVal.jobj [("k", JVal.jint 5)]) "k" =
      Except.error PyError.attributeError := rfl

/-- C6 (amended): for every JSON node and key, `_parse_text` returns
the trimmed string value when the key is present with a non-null string
value, returns the empty string (never null/absent) when the key is
missing or its value is null, and fails with `AttributeError` when the
present value is not a string. -/
theorem parse_text_amended (node : JVal) (key : String) :
    (node.get key = Except.ok none → _parse_text node key = Except.ok "") ∧
    (∀ s : String, node.get key = Except.ok (some (JVal.jstr s)) →
      _parse_text node key = Except.ok (pyStrip s)) ∧
    (∀ v : JVal, node.get key = Except.ok (some v) → (∀ s : String, v ≠ JVal.jstr s) →
      _parse_text node key = Except.error PyError.attributeError) := by
  refine ⟨?_, ?_, ?_⟩
  · intro h
    unfold _parse_text
    rw [h, except_bind_ok]
  · intro s h
    unfold _parse_text
    rw [h, except_bind_ok]
  · intro v h hv
    unfold _parse_text
    rw [h, except_bind_ok]
    cases v with
    | jstr s => exact absurd rfl (hv s)
    | jnull => rfl
    | jbool b => rfl
    | jint n => rfl
    | jarr xs => rfl
    | jobj fields => rfl

/-- C6 (witness): the amended theorem at concrete inputs. -/
theorem parse_text_amended_witness :
    _parse_text (JVal.jobj [("a", JVal.jstr "  hi ")]) "missing" = Except.ok "" ∧
    _parse_text (JVal.jobj [("a", JVal.jstr "  hi ")]) "a" = Except.ok "hi" ∧
    _parse_text (JVal.jobj [("b", JVal.jint 7)]) "b" =
      Except.error PyError.attributeError := by
  refine ⟨?_, ?_, ?_⟩
  · exact (parse_text_amended (JVal.jobj [("a", JVal.jstr "  hi ")]) "missing").1 rfl
  · exact (parse_text_amended (JVal.jobj [("a", JVal.jstr "  hi ")]) "a").2.1 "  hi " rfl
  · exact (parse_text_amended (JVal.jobj [("b", JVal.jint 7)]) "b").2.2
      (JVal.jint 7) rfl (fun s h => JVal.noConfusion h)

/-- C7: for every JSON node and key, `_parse_int` returns an absent
result (not zero) when the key is missing or its value is null, returns
the integer value when the value is present and convertible, and fails
with `ParseError` when the present value cannot be converted to an
integer. -/
theorem parse_int_contract (node : JVal) (key : String) :
    (node.get key = Except.ok none → _parse_int node key = Except.ok none) ∧
    (∀ n : Int, node.get key = Except.ok (some (JVal.jint n)) →
      _parse_int node key = Except.ok (some n)) ∧
    (∀ v : JVal, ∀ n : Int, node.get key = Except.ok (some v) →
      pyIntConv v = Except.ok n → _parse_int node key = Except.ok (some n)) ∧
    (∀ v : JVal, node.get key = Except.ok (some v) →
      pyIntConv v = Except.error PyError.parseError →
      _parse_int node key = Except.error PyError.parseError) := by
  refine ⟨?_, ?_, ?_, ?_⟩
  · intro h
    unfold _parse_int
    rw [h, except_bind_ok]
  · intro n h
    unfold _parse_int
    rw [h, except_bind_ok]
    rfl
  · intro v n h hc
    unfold _parse_int
    rw [h, except_bind_ok]
    show Except.map some (pyIntConv v) = _
    rw [hc]
    rfl
  · intro v h hc
    unfold _parse_int
    rw [h, except_bind_ok]
    show Except.map some (pyIntConv v) = _
    rw [hc]
    rfl

/-- C7 (witness): the contract at concrete inputs — absent key, int
value, convertible string value, non-numeric string value. -/
theorem parse_int_contract_witness :
    _parse_int (JVal.jobj []) "estimate" = Except.ok none ∧
    _parse_int (JVal.jobj [("estimate", JVal.jint (-1))]) "estimate" =
      Except.ok (some (-1)) ∧
    _parse_int (JVal.jobj [("n", JVal.jstr "42")]) "n" = Except.ok (some 42) ∧
    _parse_int (JVal.jobj [("n", JVal.jstr "abc")]) "n" =
      Except.error PyError.parseError := by
  refine ⟨?_, ?_, ?_, ?_⟩
  · exact (parse_int_contract (JVal.jobj []) "estimate").1 rfl
  · exact (parse_int_contract (JVal.jobj [("estimate", JVal.jint (-1))]) "estimate").2.1
      (-1) rfl
  · exact (parse_int_contract (JVal.jobj [("n", JVal.jstr "42")]) "n").2.2.1
      (JVal.jstr "42") 42 rfl rfl
  · exact (parse_int_contract (JVal.jobj [("n", JVal.jstr "abc")]) "n").2.2.2
      (JVal.jstr "abc") rfl rfl

/-- C8: for every Story, `first_label` returns the first element of
`labels` when `labels` is a non-empty list, and an absent result when
`labels` is an empty list or absent; `first_label` takes the story as a
plain value and returns only the label, so reading it cannot modify the
story. -/
theorem first_label_contract (s : Story) :
    (∀ x : JVal, ∀ xs : List JVal, s.labels = some (JVal.jarr (x :: xs)) →
      s.first_label = Except.ok (some x)) ∧
    (s.labels = some (JVal.jarr []) → s.first_label = Except.ok none) ∧
    (s.labels = none → s.first_label = Except.ok none) := by
  refine ⟨?_, ?_, ?_⟩
  · intro x xs h
    unfold Story.first_label
    rw [h]
    rfl
  · intro h
    unfold Story.first_label
    rw [h]
    rfl
  · intro h
    unfold Story.first_label
    rw [h]

/-- C8 (witness): `first_label` on a story with one label, with an
empty label list and with absent labels. -/
theorem first_label_contract_witness :
    ({ defaultStory with labels := some (JVal.jarr [JVal.jstr "ui"]) } : Story).first_label =
      Except.ok (some (JVal.jstr "ui")) ∧
    ({ defaultStory with labels := some (JVal.jarr []) } : Story).first_label =
      Except.ok none ∧
    (defaultStory.first_label = Except.ok none) := by
  refine ⟨?_, ?_, ?_⟩
  · exact (first_label_contract _).1 (JVal.jstr "ui") [] rfl
  · exact (first_label_contract _).2.1 rfl
  · exact (first_label_contract defaultStory).2.2 rfl

/-- C1: for every Story whose estimate equals -1, `start`, `finish` and
`deliver` fail with `InvalidStateException` and issue no network
request (the request trace is empty, whatever the remote service); for
every Story whose estimate is not -1, the calls proceed to `set_state`
with `'started'`/`'finished'`/`'delivered'` respectively, discarding
its returned body. -/
theorem estimate_guard_on_state_transitions (s : Story) (remote : Remote) :
    (s.estimate = some (-1) →
      s.start remote = (Except.error PyError.invalidStateException, []) ∧
      s.finish remote = (Except.error PyError.invalidStateException, []) ∧
      s.deliver remote = (Except.error PyError.invalidStateException, [])) ∧
    (s.estimate ≠ some (-1) →
      s.start remote = Net.bind (s.set_state "started") (fun _ => Net.pure ()) remote ∧
      s.finish remote = Net.bind (s.set_state "finished") (fun _ => Net.pure ()) remote ∧
      s.deliver remote = Net.bind (s.set_state "delivered") (fun _ => Net.pure ()) remote) := by
  constructor
  · intro h
    refine ⟨?_, ?_, ?_⟩ <;>
      simp [Story.start, Story.finish, Story.deliver, h, Net.throw]
  · intro h
    refine ⟨?_, ?_, ?_⟩ <;>
      simp [Story.start, Story.finish, Story.deliver, h]

/-- A remote service that accepts everything with an empty JSON body. -/
def acceptingRemote : Remote := fun _ => { status := 200, body := JVal.jnull }

/-- C1 (witness): the guard at an unestimated story (estimate -1) and
at an estimated one (estimate 3). -/
theorem estimate_guard_on_state_transitions_witness :
    ({ defaultStory with estimate := some (-1) } : Story).start acceptingRemote =
      (Except.error PyError.invalidStateException, []) ∧
    ({ defaultStory with estimate := some 3 } : Story).start acceptingRemote =
      Net.bind (({ defaultStory with estimate := some 3 } : Story).set_state "started")
        (fun _ => Net.pure ()) acceptingRemote := by
  constructor
  · exact ((estimate_guard_on_state_transitions _ acceptingRemote).1 rfl).1
  · exact ((estimate_guard_on_state_transitions _ acceptingRemote).2 (by decide)).1

/-- Inversion for a successful `Story.from_json`: the estimate field of
the constructed story is exactly what `_parse_int` read. -/
theorem from_json_ok_estimate (node : JVal) (st : Story)
    (h : Story.from_json node = Except.ok st) :
    _parse_int node "estimate" = Except.ok st.estimate := by
  unfold Story.from_json at h
  cases h1 : _parse_int node "id" with
  | error e => rw [h1, except_bind_error] at h; exact absurd h (by simp)
  | ok a1 =>
  simp only [h1, except_bind_ok] at h
  cases h2 : _parse_text node "name" with
  | error e => rw [h2, except_bind_error] at h; exact absurd h (by simp)
  | ok a2 =>
  simp only [h2, except_bind_ok] at h
  cases h3 : _parse_text node "owned_by" with
  | error e => rw [h3, except_bind_error] at h; exact absurd h (by simp)
  | ok a3 =>
  simp only [h3, except_bind_ok] at h
  cases h4 : _parse_text node "story_type" with
  | error e => rw [h4, except_bind_error] at h; exact absurd h (by simp)
  | ok a4 =>
  simp only [h4, except_bind_ok] at h
  cases h5 : _parse_text node "current_state" with
  | error e => rw [h5, except_bind_error] at h; exact absurd h (by simp)
  | ok a5 =>
  simp only [h5, except_bind_ok] at h
  cases h6 : _parse_text node "description" with
  | error e => rw [h6, except_bind_error] at h; exact absurd h (by simp)
  | ok a6 =>
  simp only [h6, except_bind_ok] at h
  cases h7 : _parse_int node "estimate" with
  | error e => rw [h7, except_bind_error] at h; exact absurd h (by simp)
  | ok a7 =>
  simp only [h7, except_bind_ok] at h
  cases h8 : _parse_array node "labels" with
  | error e => rw [h8, except_bind_error] at h; exact absurd h (by simp)
  | ok a8 =>
  simp only [h8, except_bind_ok] at h
  cases h9 : _parse_text node "url" with
  | error e => rw [h9, except_bind_error] at h; exact absurd h (by simp)
  | ok a9 =>
  simp only [h9, except_bind_ok] at h
  cases h10 : _parse_int node "project_id" with
  | error e => rw [h10, except_bind_error] at h; exact absurd h (by simp)
  | ok a10 =>
  simp only [h10, except_bind_ok] at h
  cases h11 : parseChildList node "notes" parseNote with
  | error e => rw [h11, except_bind_error] at h; exact absurd h (by simp)
  | ok a11 =>
  simp only [h11, except_bind_ok] at h
  cases h12 : parseChildList node "attachments" parseAttachment with
  | error e => rw [h12, except_bind_error] at h; exact absurd h (by simp)
  | ok a12 =>
  simp only [h12, except_bind_ok] at h
  cases h13 : parseChildList node "tasks" parseTask with
  | error e => rw [h13, except_bind_error] at h; exact absurd h (by simp)
  | ok a13 =>
  simp only [h13, except_bind_ok] at h
  injection h with hst
  subst hst
  rfl

/-- Trace of `Net.bind x (fun _ => Net.pure b)`: exactly the requests
`x` issues. -/
theorem net_bind_pure_trace {α β : Type} (x : Net α) (b : β) (remote : Remote) :
    (Net.bind x (fun _ => Net.pure b) remote).2 = (x remote).2 := by
  unfold Net.bind
  cases hx : x remote with
  | mk r t => cases r <;> simp [Net.pure]

/-- C3: for every well-formed JSON node — scalar keys present with the
schema's types, strings already stripped, child collections parseable —
`Story.from_json` succeeds and reading back each scalar field yields
the value of the corresponding JSON key, the state being read from the
`current_state` key.  Construction is pure: `Story.from_json` takes no
`Remote`, so no network access can occur. -/
theorem story_from_json_round_trip (node : JVal) (i e pid : Int)
    (nm ob ty sta de u : String) (lv : JVal)
    (ns : List Note) (ats : List Attachment) (ts : List PivotalTask)
    (hid : node.get "id" = Except.ok (some (JVal.jint i)))
    (hnm : node.get "name" = Except.ok (some (JVal.jstr nm)))
    (hnm2 : pyStrip nm = nm)
    (hob : node.get "owned_by" = Except.ok (some (JVal.jstr ob)))
    (hob2 : pyStrip ob = ob)
    (hty : node.get "story_type" = Except.ok (some (JVal.jstr ty)))
    (hty2 : pyStrip ty = ty)
    (hsta : node.get "current_state" = Except.ok (some (JVal.jstr sta)))
    (hsta2 : pyStrip sta = sta)
    (hde : node.get "description" = Except.ok (some (JVal.jstr de)))
    (hde2 : pyStrip de = de)
    (hes : node.get "estimate" = Except.ok (some (JVal.jint e)))
    (hla : node.get "labels" = Except.ok (some lv))
    (hur : node.get "url" = Except.ok (some (JVal.jstr u)))
    (hur2 : pyStrip u = u)
    (hpi : node.get "project_id" = Except.ok (some (JVal.jint pid)))
    (hno : parseChildList node "notes" parseNote = Except.ok ns)
    (hat : parseChildList node "attachments" parseAttachment = Except.ok ats)
    (hta : parseChildList node "tasks" parseTask = Except.ok ts) :
    ∃ st : Story, Story.from_json node = Except.ok st ∧
      st.story_id = some i ∧ st.name = nm ∧ st.owned_by = ob ∧
      st.story_type = ty ∧ st.state = sta ∧ st.description = de ∧
      st.estimate = some e ∧ st.labels = some lv ∧ st.url = u ∧
      st.project_id = some pid := by
  have v1 : _parse_int node "id" = Except.ok (some i) := by
    unfold _parse_int; rw [hid, except_bind_ok]; rfl
  have v2 : _parse_text node "name" = Except.ok nm := by
    unfold _parse_text; rw [hnm, except_bind_ok]
    show Except.ok (pyStrip nm) = _
    rw [hnm2]
  have v3 : _parse_text node "owned_by" = Except.ok ob := by
    unfold _parse_text; rw [hob, except_bind_ok]
    show Except.ok (pyStrip ob) = _
    rw [hob2]
  have v4 : _parse_text node "story_type" = Except.ok ty := by
    unfold _parse_text; rw [hty, except_bind_ok]
    show Except.ok (pyStrip ty) = _
    rw [hty2]
  have v5 : _parse_text node "current_state" = Except.ok sta := by
    unfold _parse_text; rw [hsta, except_bind_ok]
    show Except.ok (pyStrip sta) = _
    rw [hsta2]
  have v6 : _parse_text node "description" = Except.ok de := by
    unfold _parse_text; rw [hde, except_bind_ok]
    show Except.ok (pyStrip de) = _
    rw [hde2]
  have v7 : _parse_int node "estimate" = Except.ok (some e) := by
    unfold _parse_int; rw [hes, except_bind_ok]; rfl
  have v8 : _parse_array node "labels" = Except.ok (some lv) := by
    unfold _parse_array; exact hla
  have v9 : _parse_text node "url" = Except.ok u := by
    unfold _parse_text; rw [hur, except_bind_ok]
    show Except.ok (pyStrip u) = _
    rw [hur2]
  have v10 : _parse_int node "project_id" = Except.ok (some pid) := by
    unfold _parse_int; rw [hpi, except_bind_ok]; rfl
  simp only [Story.from_json, v1, v2, v3, v4, v5, v6, v7, v8, v9, v10,
    hno, hat, hta, except_bind_ok]
  exact ⟨_, rfl, rfl, rfl, rfl, rfl, rfl, rfl, rfl, rfl, rfl, rfl⟩

/-- A concrete well-formed story node for the C3 witness. -/
def c3node : JVal := JVal.jobj
  [("id", JVal.jint 7), ("name", JVal.jstr "Fix crash"),
   ("owned_by", JVal.jstr "Ada"), ("story_type", JVal.jstr "feature"),
   ("current_state", JVal.jstr "started"), ("description", JVal.jstr "boom"),
   ("estimate", JVal.jint 2), ("labels", JVal.jarr [JVal.jstr "ui"]),
   ("url", JVal.jstr "http://x"), ("project_id", JVal.jint 3),
   ("notes", JVal.jarr [JVal.jobj
     [("id", JVal.jint 1), ("text", JVal.jstr "n"), ("author", JVal.jstr "a")]])]

/-- C3 (witness): the round trip at a concrete node with every scalar
key and one note child. -/
theorem story_from_json_round_trip_witness :
    ∃ st : Story, Story.from_json c3node = Except.ok st ∧
      st.story_id = some 7 ∧ st.name = "Fix crash" ∧ st.owned_by = "Ada" ∧
      st.story_type = "feature" ∧ st.state = "started" ∧ st.description = "boom" ∧
      st.estimate = some 2 ∧ st.labels = some (JVal.jarr [JVal.jstr "ui"]) ∧
      st.url = "http://x" ∧ st.project_id = some 3 :=
  story_from_json_round_trip c3node 7 2 3 "Fix crash" "Ada" "feature" "started"
    "boom" "http://x" (JVal.jarr [JVal.jstr "ui"])
    [{ note_id := some 1, text := "n", author := "a" }] [] []
    rfl rfl rfl rfl rfl rfl rfl rfl rfl rfl rfl rfl rfl rfl rfl rfl rfl rfl rfl

/-- C9: a Story built by `Story.from_json` from a node with no
`estimate` key has an absent estimate, and `start`, `finish`, `deliver`
do not raise `InvalidStateException` on it: the guard rejects only the
-1 sentinel, so the calls proceed to `set_state` and the state-update
PUT request is issued (the request trace of `start` is exactly the one
PUT). -/
theorem absent_estimate_passes_guard (node : JVal) (st : Story) (remote : Remote)
    (hfj : Story.from_json node = Except.ok st)
    (habs : node.get "estimate" = Except.ok none) :
    st.estimate = none ∧
    st.start remote = Net.bind (st.set_state "started") (fun _ => Net.pure ()) remote ∧
    st.finish remote = Net.bind (st.set_state "finished") (fun _ => Net.pure ()) remote ∧
    st.deliver remote = Net.bind (st.set_state "delivered") (fun _ => Net.pure ()) remote ∧
    (st.start remote).2 =
      [{ method := "PUT", url := update_story_url st,
         payload := [("current_state", JVal.jstr "started")] }] := by
  have hest : st.estimate = none := by
    have h := from_json_ok_estimate node st hfj
    unfold _parse_int at h
    rw [habs, except_bind_ok] at h
    injection h with h2
    exact h2.symm
  have hne : st.estimate ≠ some (-1) := by
    rw [hest]
    exact fun hc => Option.noConfusion hc
  have hstart : st.start remote =
      Net.bind (st.set_state "started") (fun _ => Net.pure ()) remote := by
    simp [Story.start, hne]
  refine ⟨hest, hstart, ?_, ?_, ?_⟩
  · simp [Story.finish, hne]
  · simp [Story.deliver, hne]
  · rw [hstart, net_bind_pure_trace]
    rfl

/-- A node with no `estimate` key, as the remote service sends for bugs
and chores. -/
def c9node : JVal := JVal.jobj
  [("id", JVal.jint 8), ("story_type", JVal.jstr "bug"),
   ("current_state", JVal.jstr "unstarted"), ("project_id", JVal.jint 3)]

/-- The story `Story.from_json` builds from `c9node`. -/
def c9story : Story :=
  { defaultStory with
    story_id := some 8
    project_id := some 3
    story_type := "bug"
    state := "unstarted" }

/-- C9 (witness): the story parsed from `c9node` has an absent estimate
and its `start` issues the PUT. -/
theorem absent_estimate_passes_guard_witness :
    c9story.estimate = none ∧
    c9story.start acceptingRemote =
      Net.bind (c9story.set_state "started") (fun _ => Net.pure ())
        acceptingRemote := by
  have h := absent_estimate_passes_guard c9node c9story acceptingRemote rfl rfl
  exact ⟨h.1, h.2.1⟩

/-- A concrete project for the load_story claims. -/
def c2proj : Project := { project_id := some 1, name := "P", point_scale := none }

/-- A remote service answering every request with status 300 and an
empty JSON object body (a non-redirected 300 reaches the caller). -/
def c2remote300 : Remote := fun _ => { status := 300, body := JVal.jobj [] }

/-- C2 (counterexample): the claim that every non-2xx status other than
404 propagates as a transport error is false.  `raise_for_status`
raises only for statuses in [400, 600), so on a 300 response
`load_story` neither returns absent nor propagates an error: it parses
the body and returns a present story. -/
theorem load_story_non2xx_counterexample :
    c2proj.load_story 42 c2remote300 =
      (Except.ok (some defaultStory), [story_request c2proj 42]) ∧
    (c2remote300 (story_request c2proj 42)).status = 300 := ⟨rfl, rfl⟩

/-- C2 (amended): `load_story` returns an absent result exactly on a
404 answer; every other status in the `HTTPError` range [400, 600)
propagates unchanged as `httpError` with that status; a status outside
that range raises nothing and the body is parsed as the story. -/
theorem load_story_status_translation (p : Project) (story_id : Int)
    (remote : Remote) (status : Nat) (body : JVal)
    (hresp : remote (story_request p story_id) = { status := status, body := body }) :
    (status = 404 →
      p.load_story story_id remote = (Except.ok none, [story_request p story_id])) ∧
    (400 ≤ status → status < 600 → status ≠ 404 →
      p.load_story story_id remote =
        (Except.error (PyError.httpError status), [story_request p story_id])) ∧
    (¬ (400 ≤ status ∧ status < 600) →
      p.load_story story_id remote =
        (Except.map some (Story.from_json body), [story_request p story_id])) := by
  refine ⟨?_, ?_, ?_⟩
  · intro h
    subst h
    unfold Project.load_story
    rw [hresp]
    rfl
  · intro h1 h2 h3
    unfold Project.load_story
    rw [hresp]
    unfold raise_for_status
    rw [if_pos ⟨h1, h2⟩]
    split
    · rename_i heq
      injection heq with heq2
      injection heq2 with heq3
      exact absurd heq3 h3
    · rename_i e heq
      injection heq with heq2
      subst heq2
      rfl
    · rename_i response heq
      simp at heq
  · intro h
    unfold Project.load_story
    rw [hresp]
    unfold raise_for_status
    rw [if_neg h]
    cases hfj : Story.from_json body with
    | ok st => simp [hfj, Except.map]
    | error e => simp [hfj, Except.map]

/-- A remote service answering every request with a 404. -/
def c2remote404 : Remote := fun _ => { status := 404, body := JVal.jnull }

/-- A remote service answering every request with a 500. -/
def c2remote500 : Remote := fun _ => { status := 500, body := JVal.jnull }

/-- C2 (witness): the amended behaviour at a 404 answer (absent result)
and at a 500 answer (the transport error propagates unchanged). -/
theorem load_story_status_translation_witness :
    c2proj.load_story 42 c2remote404 = (Except.ok none, [story_request c2proj 42]) ∧
    c2proj.load_story 42 c2remote500 =
      (Except.error (PyError.httpError 500), [story_request c2proj 42]) := by
  constructor
  · exact (load_story_status_translation c2proj 42 c2remote404 404 JVal.jnull rfl).1 rfl
  · exact (load_story_status_translation c2proj 42 c2remote500 500 JVal.jnull rfl).2.1
      (by decide) (by decide) (by decide)

/-- C10 (counterexample): the claim that `load_project` always fails
with the arity error regardless of the remote response is false: on a
500 answer the transport error is raised first, so the failure is
`httpError 500`, not `TypeError`. -/
theorem load_project_arity_counterexample :
    (Project.load_project 1 c2remote500).1 = Except.error (PyError.httpError 500) ∧
    PyError.httpError 500 ≠ PyError.typeError := ⟨rfl, by decide⟩

/-- C10 (amended): `Project.load_project` never returns a `Project` —
its result is always an error; and whenever the GET succeeds and the
name field parses, the failure is precisely the arity `TypeError` from
invoking the three-parameter `Project` constructor with two arguments. -/
theorem load_project_always_fails (project_id : Int) (remote : Remote) :
    (∃ e : PyError, (Project.load_project project_id remote).1 = Except.error e) ∧
    (∀ body : JVal,
      raise_for_status
        (remote { method := "GET", url := project_url project_id, payload := [] }) =
        Except.ok body →
      ∀ nm : String, _parse_text body "name" = Except.ok nm →
      (Project.load_project project_id remote).1 = Except.error PyError.typeError) := by
  constructor
  · cases hr : raise_for_status
        (remote { method := "GET", url := project_url project_id, payload := [] }) with
    | error e =>
      refine ⟨e, ?_⟩
      simp [Project.load_project, Net.bind, _perform_pivotal_get, Net.lift, hr]
    | ok body =>
      cases hp : _parse_text body "name" with
      | error e =>
        refine ⟨e, ?_⟩
        simp [Project.load_project, Net.bind, _perform_pivotal_get, Net.lift, hr, hp,
          except_bind_error]
      | ok nm =>
        refine ⟨PyError.typeError, ?_⟩
        simp [Project.load_project, Net.bind, _perform_pivotal_get, Net.lift, hr, hp,
          except_bind_ok]
  · intro body hb nm hn
    simp [Project.load_project, Net.bind, _perform_pivotal_get, Net.lift, hb, hn,
      except_bind_ok]

/-- A remote service answering 200 with a project body. -/
def c10okremote : Remote :=
  fun _ => { status := 200, body := JVal.jobj [("name", JVal.jstr "P")] }

/-- C10 (witness): with a successful GET and a parsable name,
`load_project` fails with the arity `TypeError`. -/
theorem load_project_always_fails_witness :
    (Project.load_project 1 c10okremote).1 = Except.error PyError.typeError :=
  (load_project_always_fails 1 c10okremote).2
    (JVal.jobj [("name", JVal.jstr "P")]) rfl "P" rfl

/-- Evaluation of `Net.bind` when the first computation succeeds. -/
theorem net_bind_ok {α β : Type} (x : Net α) (f : α → Net β) (remote : Remote)
    (a : α) (t : List Request) (hx : x remote = (Except.ok a, t)) :
    Net.bind x f remote = ((f a remote).1, t ++ (f a remote).2) := by
  unfold Net.bind
  rw [hx]

/-- The comprehension keeps exactly the stories whose estimate is the
-1 sentinel, provided every estimate is present (otherwise `int(None)`
would fail). -/
theorem filterUnestimated_eq (l : List Story) (h : ∀ s ∈ l, s.estimate.isSome) :
    filterUnestimated l =
      Except.ok (l.filter fun s => s.estimate == some (-1)) := by
  induction l with
  | nil => rfl
  | cons s rest ih =>
    obtain ⟨n, hn⟩ := Option.isSome_iff_exists.mp (h s (List.mem_cons_self s rest))
    have hrest := ih (fun q hq => h q (List.mem_cons_of_mem s hq))
    unfold filterUnestimated
    rw [hn]
    rw [show int_of_estimate (some n) = Except.ok n from rfl, except_bind_ok,
      hrest, except_bind_ok]
    rw [List.filter_cons]
    by_cases hc : n = -1
    · subst hc
      simp [hn]
    · simp [hn, hc]

/-- C4: `unestimated_stories` returns the open bugs (the stories of the
`type:bug state:unstarted` query, which is exactly `open_bugs`)
followed by those stories of the `type:feature state:unstarted` query
whose estimate equals -1 — the client-side estimate filter touches only
the feature query, the bug list is appended unfiltered. -/
theorem unestimated_stories_union (p : Project) (remote : Remote)
    (features bugs : List Story) (t1 t2 : List Request)
    (hf : p.get_stories "type:feature state:unstarted" remote = (Except.ok features, t1))
    (hb : p.open_bugs remote = (Except.ok bugs, t2))
    (he : ∀ s ∈ features, s.estimate.isSome) :
    p.unestimated_stories remote =
      (Except.ok (bugs ++ features.filter fun s => s.estimate == some (-1)),
        t1 ++ t2) ∧
    p.open_bugs remote = p.get_stories "type:bug state:unstarted" remote := by
  constructor
  · unfold Project.unestimated_stories
    rw [net_bind_ok _ _ remote features t1 hf]
    rw [net_bind_ok _ _ remote bugs t2 hb]
    simp only [Net.lift, filterUnestimated_eq features he, except_bind_ok,
      List.append_nil]
  · rfl

/-- A concrete project for the C4 witness. -/
def c4proj : Project := { project_id := some 7, name := "T", point_scale := none }

/-- An unstarted, unestimated feature node. -/
def c4featNode : JVal := JVal.jobj
  [("id", JVal.jint 2), ("story_type", JVal.jstr "feature"),
   ("current_state", JVal.jstr "unstarted"), ("estimate", JVal.jint (-1))]

/-- An unstarted, unestimated bug node. -/
def c4bugNode : JVal := JVal.jobj
  [("id", JVal.jint 1), ("story_type", JVal.jstr "bug"),
   ("current_state", JVal.jstr "unstarted"), ("estimate", JVal.jint (-1))]

/-- The story parsed from `c4featNode`. -/
def c4featStory : Story :=
  { defaultStory with
    story_id := some 2
    story_type := "feature"
    state := "unstarted"
    estimate := some (-1) }

/-- The story parsed from `c4bugNode`. -/
def c4bugStory : Story :=
  { defaultStory with
    story_id := some 1
    story_type := "bug"
    state := "unstarted"
    estimate := some (-1) }

/-- A remote service holding one unstarted bug and one unstarted,
unestimated feature. -/
def c4remote : Remote := fun req =>
  if req.url = stories_filter_url c4proj "type:feature state:unstarted" then
    { status := 200, body := JVal.jarr [c4featNode] }
  else if req.url = stories_filter_url c4proj "type:bug state:unstarted" then
    { status := 200, body := JVal.jarr [c4bugNode] }
  else { status := 404, body := JVal.jnull }

/-- The GET request of the feature query. -/
def c4featReq : Request :=
  { method := "GET", url := stories_filter_url c4proj "type:feature state:unstarted",
    payload := [] }

/-- The GET request of the bug query. -/
def c4bugReq : Request :=
  { method := "GET", url := stories_filter_url c4proj "type:bug state:unstarted",
    payload := [] }

/-- C4 (witness): on a project with stories
`[{id:1,bug,unstarted,-1}, {id:2,feature,unstarted,-1}]`,
`unestimated_stories` returns both, as two distinct entities whose IDs
match the nodes. -/
theorem unestimated_stories_union_witness :
    c4proj.unestimated_stories c4remote =
      (Except.ok [c4bugStory, c4featStory], [c4featReq, c4bugReq]) ∧
    c4bugStory.story_id = some 1 ∧ c4featStory.story_id = some 2 ∧
    c4bugStory ≠ c4featStory := by
  have h := (unestimated_stories_union c4proj c4remote [c4featStory] [c4bugStory]
    [c4featReq] [c4bugReq] rfl rfl (by decide)).1
  refine ⟨?_, rfl, rfl, ?_⟩
  · rw [h]
    rfl
  · intro hc
    have : c4bugStory.story_id = c4featStory.story_id := by rw [hc]
    simp [c4bugStory, c4featStory, defaultStory] at this

/-- `load_story` always issues exactly its one GET request, whatever
the outcome. -/
theorem load_story_trace (p : Project) (story_id : Int) (remote : Remote) :
    (p.load_story story_id remote).2 = [story_request p story_id] := by
  unfold Project.load_story
  split
  · rfl
  · rfl
  · split
    · rfl
    · rfl

/-- Unfolding one loop step when the head project has the story. -/
theorem findLoop_cons_hit (story_id : Int) (p : Project) (rest : List Project)
    (remote : Remote) (st : Story)
    (h : (p.load_story story_id remote).1 = Except.ok (some st)) :
    findLoop story_id (p :: rest) remote =
      (Except.ok (some p), [story_request p story_id]) := by
  have heta : p.load_story story_id remote =
      ((p.load_story story_id remote).1, (p.load_story story_id remote).2) := rfl
  have hfull : p.load_story story_id remote =
      (Except.ok (some st), [story_request p story_id]) := by
    rw [heta, h, load_story_trace]
  have hstep : findLoop story_id (p :: rest) remote =
      Net.bind (p.load_story story_id) (fun story =>
        match story with
        | some _ => Net.pure (some p)
        | none => findLoop story_id rest) remote := rfl
  rw [hstep]
  unfold Net.bind
  rw [hfull]
  rfl

/-- Unfolding one loop step when the head project lacks the story. -/
theorem findLoop_cons_miss (story_id : Int) (p : Project) (rest : List Project)
    (remote : Remote)
    (h : (p.load_story story_id remote).1 = Except.ok none) :
    findLoop story_id (p :: rest) remote =
      ((findLoop story_id rest remote).1,
        story_request p story_id :: (findLoop story_id rest remote).2) := by
  have heta : p.load_story story_id remote =
      ((p.load_story story_id remote).1, (p.load_story story_id remote).2) := rfl
  have hfull : p.load_story story_id remote =
      (Except.ok none, [story_request p story_id]) := by
    rw [heta, h, load_story_trace]
  have hstep : findLoop story_id (p :: rest) remote =
      Net.bind (p.load_story story_id) (fun story =>
        match story with
        | some _ => Net.pure (some p)
        | none => findLoop story_id rest) remote := rfl
  rw [hstep]
  unfold Net.bind
  rw [hfull]
  rfl

/-- The loop returns the first project that has the story, having
queried exactly the projects up to and including it, in order. -/
theorem findLoop_hit_general (story_id : Int) (remote : Remote) :
    ∀ (pre : List Project) (p : Project) (post : List Project),
      (∀ q ∈ pre, (q.load_story story_id remote).1 = Except.ok none) →
      (∃ st : Story, (p.load_story story_id remote).1 = Except.ok (some st)) →
      findLoop story_id (pre ++ p :: post) remote =
        (Except.ok (some p), (pre ++ [p]).map fun q => story_request q story_id) := by
  intro pre
  induction pre with
  | nil =>
    rintro p post _ ⟨st, hhit⟩
    rw [List.nil_append, findLoop_cons_hit story_id p post remote st hhit]
    rfl
  | cons q pre ih =>
    rintro p post hmiss ⟨st, hhit⟩
    rw [List.cons_append,
      findLoop_cons_miss story_id q (pre ++ p :: post) remote
        (hmiss q (List.mem_cons_self q pre)),
      ih p post (fun r hr => hmiss r (List.mem_cons_of_mem q hr)) ⟨st, hhit⟩]
    rfl

/-- When no project has the story the loop returns `None`, having
queried every project exactly once, in order. -/
theorem findLoop_all_miss (story_id : Int) (remote : Remote) :
    ∀ projects : List Project,
      (∀ q ∈ projects, (q.load_story story_id remote).1 = Except.ok none) →
      findLoop story_id projects remote =
        (Except.ok none, projects.map fun q => story_request q story_id) := by
  intro projects
  induction projects with
  | nil => intro _; rfl
  | cons q rest ih =>
    intro h
    rw [findLoop_cons_miss story_id q rest remote (h q (List.mem_cons_self q rest)),
      ih (fun r hr => h r (List.mem_cons_of_mem q hr))]
    rfl

/-- C5: `find_project_for_story` tries `load_story` on each accessible
project in order: it returns the first project whose lookup yields a
present story, its request trace showing exactly one story GET per
project up to and including the hit (no lookup after it); when every
lookup misses it returns an absent result, with exactly one story GET
per project. -/
theorem find_project_searches_in_order (remote : Remote) (story_id : Int) :
    (∀ (t0 : List Request) (pre : List Project) (p : Project) (post : List Project),
      Project.all remote = (Except.ok (some (pre ++ p :: post)), t0) →
      (∀ q ∈ pre, (q.load_story story_id remote).1 = Except.ok none) →
      (∃ st : Story, (p.load_story story_id remote).1 = Except.ok (some st)) →
      find_project_for_story story_id remote =
        (Except.ok (some p),
          t0 ++ (pre ++ [p]).map fun q => story_request q story_id)) ∧
    (∀ (projects : List Project) (t0 : List Request),
      Project.all remote = (Except.ok (some projects), t0) →
      (∀ q ∈ projects, (q.load_story story_id remote).1 = Except.ok none) →
      find_project_for_story story_id remote =
        (Except.ok none, t0 ++ projects.map fun q => story_request q story_id)) := by
  constructor
  · intro t0 pre p post hall hmiss hhit
    unfold find_project_for_story
    rw [net_bind_ok _ _ remote (some (pre ++ p :: post)) t0 hall]
    show ((findLoop story_id (pre ++ p :: post) remote).1,
      t0 ++ (findLoop story_id (pre ++ p :: post) remote).2) = _
    rw [findLoop_hit_general story_id remote pre p post hmiss hhit]
  · intro projects t0 hall hmiss
    unfold find_project_for_story
    rw [net_bind_ok _ _ remote (some projects) t0 hall]
    show ((findLoop story_id projects remote).1,
      t0 ++ (findLoop story_id projects remote).2) = _
    rw [findLoop_all_miss story_id remote projects hmiss]

/-- First project of the C5 scenario (does not have story 42). -/
def c5projA : Project := { project_id := some 1, name := "A", point_scale := none }

/-- Second project of the C5 scenario (has story 42). -/
def c5projB : Project := { project_id := some 2, name := "B", point_scale := none }

/-- The projects-collection body listing A and B. -/
def c5projectsBody : JVal := JVal.jarr
  [JVal.jobj [("id", JVal.jint 1), ("name", JVal.jstr "A")],
   JVal.jobj [("id", JVal.jint 2), ("name", JVal.jstr "B")]]

/-- A remote service with two projects, where only the second one has
story 42. -/
def c5remote : Remote := fun req =>
  if req.url = projects_url then { status := 200, body := c5projectsBody }
  else if req.url = story_url c5projB 42 then { status := 200, body := JVal.jobj [] }
  else { status := 404, body := JVal.jnull }

/-- The projects-collection GET request. -/
def c5prReq : Request := { method := "GET", url := projects_url, payload := [] }

/-- C5 (witness): `find_project_for_story(42)` over projects `[A, B]`
returns `B` after exactly two story lookups, one per project, in
order. -/
theorem find_project_searches_in_order_witness :
    find_project_for_story 42 c5remote =
      (Except.ok (some c5projB),
        [c5prReq, story_request c5projA 42, story_request c5projB 42]) := by
  have hmiss : ∀ q ∈ [c5projA], (q.load_story 42 c5remote).1 = Except.ok none := by
    intro q hq
    rw [List.mem_singleton] at hq
    subst hq
    rfl
  have hhit : ∃ st : Story, (c5projB.load_story 42 c5remote).1 = Except.ok (some st) :=
    ⟨defaultStory, rfl⟩
  have h := (find_project_searches_in_order c5remote 42).1
    [c5prReq] [c5projA] c5projB [] rfl hmiss hhit
  rw [h]
  rfl
